import Mathlib

/-
  Verification of the WWWMW website health-scanning service.

  The definitions below are a shallow embedding of the TypeScript source:
  pure decision logic is transcribed directly; each network probe is modelled
  as a total function from an environment describing the outcomes of its
  external calls (each fetch either throws a JsError or returns a response)
  to the CheckResult it produces.  JavaScript numbers are embedded as Int
  (all scores, times and dates in the source are integral) except where the
  source performs real division (DNS average time, PageSpeed 0-1 score),
  which is embedded as Rat; Math.floor becomes Int.fdiv / Int.floor and
  Math.round x becomes Int.floor (x + 1/2).
-/

namespace WWWMW

/-- Verdict status, from types.ts: CheckStatus = "pass" | "warn" | "fail". -/
inductive Status where
  | pass
  | warn
  | fail
deriving DecidableEq

/-- JavaScript JSON-ish value stored in a CheckResult's open details mapping. -/
inductive DVal where
  | str : String → DVal
  | int : Int → DVal
  | bool : Bool → DVal
  | arr : List DVal → DVal
  | obj : List (String × DVal) → DVal

/-- An open details mapping (insertion-ordered, as JS object literals are). -/
abbrev Details := List (String × DVal)

/-- CheckResult from types.ts. -/
structure CheckResult where
  status : Status
  message : String
  score : Int
  details : Details

/-- CheckResults from types.ts: the eight named verdicts of one scan. -/
structure CheckResults where
  ssl : CheckResult
  dns : CheckResult
  serverResponse : CheckResult
  pageSpeed : CheckResult
  mobile : CheckResult
  https : CheckResult
  availability : CheckResult
  email : CheckResult

/-- A thrown JavaScript error, as observed by catch blocks (name and message). -/
structure JsError where
  name : String
  message : String

/-- JS `error.message || "Unknown error"` (empty string is falsy). -/
def jsMsg (e : JsError) : String :=
  if e.message = "" then "Unknown error" else e.message

/-- JS truthiness of a possibly-absent details value. -/
def truthy : Option DVal → Bool
  | some (.bool b) => b
  | some (.int n) => !(n = 0)
  | some (.str s) => !(s = "")
  | some (.arr _) => true
  | some (.obj _) => true
  | none => false

/-- JS template-literal rendering of a possibly-absent details value. -/
def jsShow : Option DVal → String
  | some (.str s) => s
  | some (.int n) => toString n
  | some (.bool b) => if b then "true" else "false"
  | some (.arr _) => ""
  | some (.obj _) => ""
  | none => "undefined"

/-- JS Math.round on an exact rational: floor(x + 1/2). -/
def jsRound (q : ℚ) : Int := Int.floor (q + 1/2)

/- ### Scoring (src/utils/scoring.ts) -/

/-- ScoreConfig from types.ts. -/
structure ScoreConfig where
  min : Int
  max : Int
  level : String
  color : String

/-- SCORE_LEVELS constant from scoring.ts. -/
def SCORE_LEVELS : List ScoreConfig :=
  [ ⟨85, 100, "EXCELLENT - Great website health!", "#28a745"⟩,
    ⟨70, 84, "GOOD - Minor improvements needed", "#17a2b8"⟩,
    ⟨50, 69, "NEEDS WORK - Several issues to fix", "#ffc107"⟩,
    ⟨0, 49, "POOR - Serious problems detected", "#dc3545"⟩ ]

/-- calculateOverallScore from scoring.ts: reduce of the eight scores. -/
def calculateOverallScore (checks : CheckResults) : Int :=
  let scores := [checks.ssl.score, checks.dns.score, checks.serverResponse.score,
    checks.pageSpeed.score, checks.mobile.score, checks.https.score,
    checks.availability.score, checks.email.score]
  scores.foldl (fun sum score => sum + score) 0

/-- getScoreLevel from scoring.ts: first SCORE_LEVELS entry containing the
score, else the Unknown tier. -/
def getScoreLevel (score : Int) : String × String :=
  match SCORE_LEVELS.find? (fun l => decide (score ≥ l.min) && decide (score ≤ l.max)) with
  | some config => (config.level, config.color)
  | none => ("Unknown", "#6c757d")

/-- identifyCriticalIssues from scoring.ts. -/
def identifyCriticalIssues (checks : CheckResults) : List String :=
  (if checks.ssl.status = .fail then ["No HTTPS - Site is insecure"] else []) ++
  (if checks.availability.status = .fail then ["Site is currently offline"] else []) ++
  (if checks.serverResponse.status = .fail then ["Server response is very slow"] else []) ++
  (if checks.pageSpeed.status = .fail then
    ["Poor page performance - significantly impacts user experience"] else [])

/-- Models `details.daysUntilExpiry && details.daysUntilExpiry < 30`
(truthiness of the number, then the comparison). -/
def daysTruthyLt30 : Option DVal → Bool
  | some (.int n) => !(n = 0) && decide (n < 30)
  | _ => false

/-- Models the strict comparison `details.dnssecValid === false`. -/
def strictEqFalse : Option DVal → Bool
  | some (.bool b) => !b
  | _ => false

/-- generateRecommendations from scoring.ts: each check's status is evaluated
against the fixed rule table, in source push order; if nothing fired, the
single positive fallback message is emitted. -/
def generateRecommendations (checks : CheckResults) : List String :=
  let sslDetails := checks.ssl.details
  let dnsDetails := checks.dns.details
  let sslRecs : List String :=
    if checks.ssl.status = .fail ∨ checks.https.status = .fail then
      ["Enable HTTPS with Let\x27s Encrypt (free, 30 min setup)"]
    else if checks.ssl.status = .warn then
      (if truthy (sslDetails.lookup "expiringSoon")
          ∨ daysTruthyLt30 (sslDetails.lookup "daysUntilExpiry") = true then
        ["Renew your SSL certificate soon (expires in "
          ++ jsShow (sslDetails.lookup "daysUntilExpiry") ++ " days)"]
      else if truthy (sslDetails.lookup "expired") then
        ["Your SSL certificate has expired - renew immediately to maintain security"]
      else [])
    else []
  let pageSpeedRecs : List String :=
    if checks.pageSpeed.status = .fail then
      ["Optimize images and enable caching to improve load times"]
    else if checks.pageSpeed.status = .warn then
      ["Consider optimizing images and minifying CSS/JS for better performance"]
    else []
  let serverRecs : List String :=
    if checks.serverResponse.status = .fail then
      ["Consider upgrading hosting for faster response times"]
    else if checks.serverResponse.status = .warn then
      ["Server response could be faster - consider CDN or server optimization"]
    else []
  let dnsRecs : List String :=
    if checks.dns.status = .fail then
      ["Move to a faster DNS provider (Cloudflare or Google DNS recommended)"]
    else if checks.dns.status = .warn then
      ["Optimize DNS by using an Anycast resolver for better global performance"]
    else []
  let dnssecRecs : List String :=
    if strictEqFalse (dnsDetails.lookup "dnssecValid") then
      ["Enable DNSSEC on your domain for tamper protection and security"]
    else []
  let cdnRecs : List String :=
    if !(truthy (dnsDetails.lookup "cdnDetected"))
        && (checks.dns.status = .warn ∨ checks.dns.status = .fail : Bool) then
      ["Consider using a CDN (Cloudflare/Fastly) for edge caching and faster global access"]
    else []
  let mobileRecs : List String :=
    if checks.mobile.status = .fail then
      ["Improve mobile responsiveness and mobile-specific optimizations"]
    else if checks.mobile.status = .warn then
      ["Fine-tune mobile experience for better user engagement"]
    else []
  let emailRecs : List String :=
    if checks.email.status = .warn then
      ["Configure MX records to enable email for your domain"]
    else []
  let recommendations := sslRecs ++ pageSpeedRecs ++ serverRecs ++ dnsRecs
    ++ dnssecRecs ++ cdnRecs ++ mobileRecs ++ emailRecs
  if recommendations.isEmpty then
    ["Great job! Keep monitoring your site regularly"]
  else recommendations

/- ### Certificate lifecycle probe (src/services/ssl-check.ts) -/

/-- CTLogCertificate from ssl-check.ts; the two date strings are embedded as
epoch milliseconds, exactly the value `new Date(s).getTime()` the source
immediately extracts from them. -/
structure CTLogCertificate where
  issuer_ca_id : Int
  issuer_name : String
  name_value : String
  min_cert_id : Int
  min_entry_timestamp : String
  not_before : Int
  not_after : Int
deriving DecidableEq

/-- The record returned by getCertificateFromCTLogs on success. -/
structure CertInfo where
  expiresAt : Int
  daysUntilExpiry : Int
  issuer : String
  sans : Int
  expiringSoon : Bool
deriving DecidableEq

/-- JS `s.split(sep)` for a one-character separator, over a string's Char
list (kernel-computable model of String.split). -/
def splitOnChar (sep : Char) : List Char → List (List Char)
  | [] => [[]]
  | c :: t =>
    match splitOnChar sep t with
    | [] => [[c]]
    | h :: r => if c = sep then [] :: h :: r else (c :: h) :: r

/-- JS `c.toLowerCase()` for one character (ASCII range, as hostnames and
SANs are). -/
def jsToLowerChar (c : Char) : Char :=
  if 'A' ≤ c ∧ c ≤ 'Z' then Char.ofNat (c.toNat + 32) else c

/-- Drop leading whitespace, for jsTrimList. -/
def dropLeadingWS : List Char → List Char
  | [] => []
  | c :: t => if c.isWhitespace then dropLeadingWS t else c :: t

/-- JS `s.trim()`: whitespace stripped from both ends. -/
def jsTrimList (l : List Char) : List Char :=
  ((dropLeadingWS ((dropLeadingWS l).reverse)).reverse)

/-- The SAN test applied to one certificate by getCertificateFromCTLogs:
the lowercased, trimmed newline-delimited name_value entries must contain
the lowercased hostname exactly, or a wildcard entry `*.domain` with the
hostname ending in `.domain` or equal to `domain`. -/
def sanMatches (hostname : String) (cert : CTLogCertificate) : Bool :=
  let sans := (splitOnChar '\n' cert.name_value.data).map
    (fun s => jsTrimList (s.map jsToLowerChar))
  let hostnameLC := hostname.data.map jsToLowerChar
  sans.any (fun san =>
    if san = hostnameLC then true
    else if ['*', '.'].isPrefixOf san then
      let domain := san.drop 2
      ('.' :: domain).isSuffixOf hostnameLC || domain = hostnameLC
    else false)

/-- Head of a stable descending sort by key f, as `arr.sort((a,b) => f b - f a)[0]`
computes it: the first element of the list attaining the maximal key. -/
def firstMaxBy (f : CTLogCertificate → Int) : List CTLogCertificate → Option CTLogCertificate
  | [] => none
  | x :: xs => some (xs.foldl (fun best y => if f best < f y then y else best) x)

/-- getCertificateFromCTLogs from ssl-check.ts, after the crt.sh response has
been parsed (the fetch itself and its failure modes are handled by ctLookup
below): keep the first 50 records, filter them by sanMatches, pick the
latest-issued still-valid record, falling back to the most recently expired
one; daysUntilExpiry uses Math.floor over 86400000 ms. -/
def getCertificateFromCTLogs (certs : List CTLogCertificate) (hostname : String)
    (now : Int) : Option CertInfo :=
  if certs.isEmpty then none
  else
    let certsToProcess := certs.take 50
    let matchingCerts := certsToProcess.filter (fun cert => sanMatches hostname cert)
    if matchingCerts.isEmpty then none
    else
      match firstMaxBy (fun c => c.not_before)
          (matchingCerts.filter (fun cert => now < cert.not_after)) with
      | some activeCert =>
          let daysUntilExpiry := (activeCert.not_after - now).fdiv 86400000
          some { expiresAt := activeCert.not_after,
                 daysUntilExpiry := daysUntilExpiry,
                 issuer := activeCert.issuer_name,
                 sans := ((splitOnChar '\n' activeCert.name_value.data).length : Int),
                 expiringSoon := daysUntilExpiry ≤ 30 }
      | none =>
          match firstMaxBy (fun c => c.not_after) matchingCerts with
          | some mostRecentExpired =>
              let daysExpired := (now - mostRecentExpired.not_after).fdiv 86400000
              some { expiresAt := mostRecentExpired.not_after,
                     daysUntilExpiry := -daysExpired,
                     issuer := mostRecentExpired.issuer_name,
                     sans := ((splitOnChar '\n' mostRecentExpired.name_value.data).length : Int),
                     expiringSoon := false }
          | none => none

/-- Outcome of the crt.sh fetch once it did not throw: HTTP ok flag and the
parsed JSON body. -/
structure CTResp where
  ok : Bool
  certs : List CTLogCertificate

/-- The try/catch shell of getCertificateFromCTLogs around the fetch: a thrown
error (timeout / network) or a non-ok HTTP status yields null. -/
def ctLookup (ct : Except JsError CTResp) (hostname : String) (now : Int) :
    Option CertInfo :=
  match ct with
  | .error _ => none
  | .ok resp =>
      if !resp.ok then none
      else getCertificateFromCTLogs resp.certs hostname now

/-- Parsed `new URL(url)` object: the fields the probes read. -/
structure UrlObj where
  protocol : String
  hostname : String

/-- isHttps from validation.ts, applied to a given parse outcome of the url. -/
def isHttpsOf : Except JsError UrlObj → Bool
  | .ok u => u.protocol = "https:"
  | .error _ => false

/-- Environment of one checkSSL invocation: outcome of `new URL(url)`, of the
handshake HEAD fetch (ok gives the response status), of the CT lookup fetch,
and the current time. -/
structure SSLEnv where
  urlParse : Except JsError UrlObj
  handshake : Except JsError Int
  ct : Except JsError CTResp
  now : Int

/-- Substring test used for `errorMessage.includes(...)`. -/
def hasSub (s pat : String) : Bool :=
  go s.toList pat.toList
where
  go : List Char → List Char → Bool
  | [], pat => pat.isEmpty
  | a :: t, pat => pat.isPrefixOf (a :: t) || go t pat

/-- The early-return verdicts of checkSSL when the Stage-1 handshake threw:
TLS-flavoured error text gives fail/0, anything else warn/5. -/
def sslHandshakeFailVerdict (fetchError : JsError) : CheckResult :=
  let errorMessage := jsMsg fetchError
  if hasSub errorMessage "certificate" || hasSub errorMessage "SSL"
      || hasSub errorMessage "TLS" then
    { status := .fail, message := "SSL/TLS certificate is invalid or expired",
      score := 0,
      details := [("protocol", .str "https"), ("secure", .bool false),
                  ("error", .str errorMessage)] }
  else
    { status := .warn, message := "HTTPS configured but connection issue detected",
      score := 5,
      details := [("protocol", .str "https"), ("secure", .bool false),
                  ("error", .str errorMessage)] }

/-- The body of checkSSL's outer try block.  The only operation inside it that
can throw past the inner catches is `new URL(url)`; the handshake fetch and
the CT lookup carry their own catch handlers. -/
def checkSSLBody (e : SSLEnv) : Except JsError CheckResult :=
  match e.urlParse with
  | .error err => .error err
  | .ok urlObj =>
    let isSecure := isHttpsOf e.urlParse
    if !isSecure then
      .ok { status := .fail,
            message := "Site is not using HTTPS - insecure connection",
            score := 0,
            details := [("protocol", .str "http"), ("secure", .bool false)] }
    else
      match e.handshake with
      | .error fetchError => .ok (sslHandshakeFailVerdict fetchError)
      | .ok statusCode =>
        match ctLookup e.ct urlObj.hostname e.now with
        | some cd =>
            if cd.daysUntilExpiry < 0 then
              .ok { status := .warn,
                    message := "HTTPS enabled but certificate expired "
                      ++ toString cd.daysUntilExpiry.natAbs ++ " days ago",
                    score := 5,
                    details := [("protocol", .str "https"), ("secure", .bool true),
                      ("statusCode", .int statusCode),
                      ("expiresAt", .int cd.expiresAt),
                      ("daysUntilExpiry", .int cd.daysUntilExpiry),
                      ("expired", .bool true), ("issuer", .str cd.issuer),
                      ("sans", .int cd.sans), ("certTransparency", .bool true)] }
            else if cd.expiringSoon then
              .ok { status := .warn,
                    message := "HTTPS enabled, certificate expires in "
                      ++ toString cd.daysUntilExpiry ++ " days",
                    score := 8,
                    details := [("protocol", .str "https"), ("secure", .bool true),
                      ("statusCode", .int statusCode),
                      ("expiresAt", .int cd.expiresAt),
                      ("daysUntilExpiry", .int cd.daysUntilExpiry),
                      ("expiringSoon", .bool true), ("issuer", .str cd.issuer),
                      ("sans", .int cd.sans), ("certTransparency", .bool true)] }
            else
              .ok { status := .pass,
                    message := "HTTPS enabled with valid certificate (expires in "
                      ++ toString cd.daysUntilExpiry ++ " days)",
                    score := 10,
                    details := [("protocol", .str "https"), ("secure", .bool true),
                      ("statusCode", .int statusCode),
                      ("expiresAt", .int cd.expiresAt),
                      ("daysUntilExpiry", .int cd.daysUntilExpiry),
                      ("expiringSoon", .bool false), ("issuer", .str cd.issuer),
                      ("sans", .int cd.sans), ("certTransparency", .bool true)] }
        | none =>
            .ok { status := .pass,
                  message := "HTTPS enabled with valid certificate",
                  score := 10,
                  details := [("protocol", .str "https"), ("secure", .bool true),
                    ("statusCode", .int statusCode),
                    ("certTransparency", .bool false)] }

/-- checkSSL's outer catch handler. -/
def sslCatch (err : JsError) : CheckResult :=
  { status := .fail, message := "Unable to verify SSL/TLS", score := 0,
    details := [("error", .str (jsMsg err))] }

/-- checkSSL from ssl-check.ts: the body under its outer try/catch. -/
def checkSSL (e : SSLEnv) : CheckResult :=
  match checkSSLBody e with
  | .ok v => v
  | .error err => sslCatch err

/- ### DNS resolution probe (src/services/dns-speed.ts) -/

/-- One record of a DoH JSON Answer array (fields the probe reads). -/
structure DNSAnswer where
  name : String
  data : String
  TTL : Int

/-- A parsed DoH JSON response; Answer may be absent. -/
structure DNSResponse where
  Status : Int
  AD : Bool
  Answer : Option (List DNSAnswer)

/-- Result of queryDNSProvider: elapsed time, and the parsed data or null.
queryDNSProvider catches every throw (timeout, network, JSON parse) and a
non-ok HTTP status itself, returning data null, so it is total. -/
structure ProviderResult where
  time : Int
  data : Option DNSResponse

/-- Environment of one checkDNSSpeed invocation: the extracted hostname
(empty string when extractHostname failed) and the two provider results. -/
structure DNSEnv where
  hostname : String
  cloudflare : ProviderResult
  google : ProviderResult

/-- Prefix test for the anchored numeric CDN regexes: `^104\.(1[6-9]|2[0-9]|3[01])\.`
matches exactly the prefixes `104.k.` for 16 ≤ k ≤ 31, and similarly below. -/
def startsWithOctet (s : String) (first : String) (lo hi : Nat) : Bool :=
  (List.range (hi + 1)).any (fun k =>
    lo ≤ k && (first ++ "." ++ toString k ++ ".").data.isPrefixOf s.data)

/-- One string tested against the cdnPatterns list of detectCDN: the anchored
IP-range regexes become prefix tests, the case-insensitive keyword regexes
become lowercase substring tests. -/
def cdnPatternTest (s : String) : Bool :=
  let l := String.mk (s.data.map jsToLowerChar)
  startsWithOctet s "104" 16 31 ||
  startsWithOctet s "172" 64 131 ||
  hasSub l "cloudflare" ||
  ("151.101.".data.isPrefixOf s.data) ||
  hasSub l "fastly" ||
  hasSub l "akamai" ||
  hasSub l "edgekey" ||
  hasSub l "edgesuite" ||
  hasSub l "cloudfront" ||
  hasSub l "cdn" ||
  hasSub l ".cloudflare." ||
  hasSub l ".fastly."

/-- detectCDN from dns-speed.ts: any answer whose address or name matches a
known CDN pattern. -/
def detectCDN (answers : List DNSAnswer) : Bool :=
  if answers.isEmpty then false
  else answers.any (fun answer => cdnPatternTest answer.data || cdnPatternTest answer.name)

/-- Minimum of a list of times, as `Math.min(...times)` on a non-empty list. -/
def listMin (l : List Int) : Int := l.foldl min (l.headD 0)

/-- Maximum of a list of times, as `Math.max(...times)` on a non-empty list. -/
def listMax (l : List Int) : Int := l.foldl max (l.headD 0)

/-- checkDNSSpeed from dns-speed.ts.  Every throwing operation it performs is
wrapped in its own catch (extractHostname, queryDNSProvider), so the body of
its outer try cannot throw; the result is computed directly. -/
def checkDNSSpeed (e : DNSEnv) : CheckResult :=
  if e.hostname = "" then
    { status := .fail, message := "Invalid hostname", score := 0, details := [] }
  else
    let cloudflareResult := e.cloudflare
    let googleResult := e.google
    let cfOk : Bool := match cloudflareResult.data with
      | some d => decide (d.Status = 0)
      | none => false
    let gOk : Bool := match googleResult.data with
      | some d => decide (d.Status = 0)
      | none => false
    let times : List Int :=
      (if cfOk then [cloudflareResult.time] else []) ++
      (if gOk then [googleResult.time] else [])
    let primaryData : Option DNSResponse :=
      match cloudflareResult.data with
      | some d => if d.Status = 0 then some d else
          (if gOk then googleResult.data else some d)
      | none => if gOk then googleResult.data else none
    match primaryData with
    | none =>
        { status := .fail, message := "DNS lookup failed on all providers",
          score := 0,
          details := [("responseTime", .int (min cloudflareResult.time googleResult.time)),
                      ("error", .str "No valid DNS response")] }
    | some pd =>
      if !(pd.Status = 0) ∨ times.isEmpty then
        { status := .fail, message := "DNS lookup failed on all providers",
          score := 0,
          details := [("responseTime", .int (min cloudflareResult.time googleResult.time)),
                      ("error", .str "No valid DNS response")] }
      else
        match pd.Answer with
        | none =>
            { status := .fail, message := "DNS records not found", score := 0,
              details := [("responseTime", .int (times.headD 0)),
                          ("status", .int pd.Status)] }
        | some answers =>
          if answers.isEmpty then
            { status := .fail, message := "DNS records not found", score := 0,
              details := [("responseTime", .int (times.headD 0)),
                          ("status", .int pd.Status)] }
          else
            let minTime := listMin times
            let maxTime := listMax times
            let averageTime : ℚ :=
              ((times.foldl (fun sum t => sum + t) 0 : Int) : ℚ) / (times.length : ℚ)
            let responseTime := jsRound averageTime
            let dnssecValid := pd.AD
            let cdnDetected := detectCDN answers
            let ttl := ((answers.head?.map (fun a => a.TTL)).getD 0)
            let details : Details :=
              [("responseTime", .int responseTime),
               ("averageTime", .int (jsRound averageTime)),
               ("minTime", .int minTime),
               ("maxTime", .int maxTime),
               ("records", .int (answers.length : Int)),
               ("dnssecValid", .bool dnssecValid),
               ("cdnDetected", .bool cdnDetected),
               ("ttl", .int ttl)]
            let dnssecNote := if !dnssecValid then ", DNSSEC not enabled" else ""
            let cdnNote := if cdnDetected then ", CDN detected" else ""
            let mkMessage := fun (speedLabel : String) =>
              speedLabel ++ " DNS resolution (" ++ toString responseTime
                ++ "ms avg" ++ dnssecNote ++ cdnNote ++ ")"
            if averageTime < 75 then
              { status := .pass,
                message := mkMessage (if averageTime < 20 then "Excellent" else "Fast"),
                score := 10, details := details }
            else if averageTime < 150 then
              { status := .warn, message := mkMessage "Moderate", score := 5,
                details := details }
            else
              { status := .fail, message := mkMessage "Slow", score := 0,
                details := details }

/- ### Server response probe (src/services/server-response.ts) -/

/-- The response fields read by the HEAD probes. -/
structure HeadResp where
  status : Int
  statusText : String

/-- Environment of one checkServerResponse invocation: the fetch outcome and
the measured elapsed wall time (Date.now() difference) on success. -/
structure SREnv where
  fetchOutcome : Except JsError HeadResp
  ttfb : Int

/-- The body of checkServerResponse's try block. -/
def checkServerResponseBody (e : SREnv) : Except JsError CheckResult :=
  match e.fetchOutcome with
  | .error err => .error err
  | .ok response =>
    let ttfb := e.ttfb
    let details : Details :=
      [("ttfb", .int ttfb), ("statusCode", .int response.status),
       ("statusText", .str response.statusText)]
    if response.status < 200 ∨ response.status ≥ 400 then
      .ok { status := .warn,
            message := "Server returned " ++ toString response.status ++ " status",
            score := 5, details := details }
    else if ttfb < 200 then
      .ok { status := .pass,
            message := "Fast server response (" ++ toString ttfb ++ "ms TTFB)",
            score := 15, details := details }
    else if ttfb < 500 then
      .ok { status := .warn,
            message := "Moderate server response (" ++ toString ttfb ++ "ms TTFB)",
            score := 10, details := details }
    else
      .ok { status := .fail,
            message := "Slow server response (" ++ toString ttfb ++ "ms TTFB)",
            score := 5, details := details }

/-- checkServerResponse's catch handler. -/
def srCatch (err : JsError) : CheckResult :=
  if err.name = "AbortError" then
    { status := .fail, message := "Server response timed out (>10s)", score := 0,
      details := [("error", .str "Timeout"), ("ttfb", .int 10000)] }
  else
    { status := .fail, message := "Unable to reach server", score := 0,
      details := [("error", .str (jsMsg err))] }

/-- checkServerResponse from server-response.ts. -/
def checkServerResponse (e : SREnv) : CheckResult :=
  match checkServerResponseBody e with
  | .ok v => v
  | .error err => srCatch err

/- ### Availability probe (src/services/availability-check.ts) -/

/-- Environment of one checkAvailability invocation. -/
structure AvEnv where
  fetchOutcome : Except JsError HeadResp

/-- The body of checkAvailability's try block. -/
def checkAvailabilityBody (e : AvEnv) : Except JsError CheckResult :=
  match e.fetchOutcome with
  | .error err => .error err
  | .ok response =>
    let details : Details :=
      [("statusCode", .int response.status), ("statusText", .str response.statusText),
       ("available", .bool true)]
    if response.status ≥ 200 ∧ response.status < 300 then
      .ok { status := .pass, message := "Site is online and responding",
            score := 15, details := details }
    else if response.status ≥ 300 ∧ response.status < 400 then
      .ok { status := .pass, message := "Site is online (with redirect)",
            score := 15, details := details }
    else if response.status ≥ 400 ∧ response.status < 500 then
      .ok { status := .warn,
            message := "Site responding but with " ++ toString response.status ++ " error",
            score := 8, details := details }
    else
      .ok { status := .fail,
            message := "Site has server error (" ++ toString response.status ++ ")",
            score := 0,
            details := [("statusCode", .int response.status),
                        ("statusText", .str response.statusText),
                        ("available", .bool false)] }

/-- checkAvailability's catch handler. -/
def availCatch (err : JsError) : CheckResult :=
  if err.name = "AbortError" then
    { status := .fail, message := "Site is not responding (timeout)", score := 0,
      details := [("error", .str "Timeout after 5 seconds"),
                  ("available", .bool false)] }
  else
    { status := .fail, message := "Site is offline or unreachable", score := 0,
      details := [("error", .str (jsMsg err)), ("available", .bool false)] }

/-- checkAvailability from availability-check.ts. -/
def checkAvailability (e : AvEnv) : CheckResult :=
  match checkAvailabilityBody e with
  | .ok v => v
  | .error err => availCatch err

/- ### Email configuration probe (src/services/email-config.ts) -/

/-- Outcome of the MX DoH fetch once it did not throw: ok flag, HTTP status,
and the JSON-parse outcome of the body (response.json() can itself throw). -/
structure EmailResp where
  ok : Bool
  status : Int
  json : Except JsError DNSResponse

/-- Environment of one checkEmailConfig invocation. -/
structure EmailEnv where
  hostname : String
  fetchOutcome : Except JsError EmailResp

/-- The body of checkEmailConfig's try block. -/
def checkEmailConfigBody (e : EmailEnv) : Except JsError CheckResult :=
  if e.hostname = "" then
    .ok { status := .fail, message := "Invalid hostname", score := 0, details := [] }
  else
    match e.fetchOutcome with
    | .error err => .error err
    | .ok response =>
      if !response.ok then
        .ok { status := .warn, message := "Unable to check email configuration",
              score := 5,
              details := [("error", .str ("HTTP " ++ toString response.status))] }
      else
        match response.json with
        | .error err => .error err
        | .ok data =>
          match data.Answer with
          | some answer =>
            if data.Status = 0 ∧ ¬answer.isEmpty then
              let mxRecords := answer.map (fun record => record.data)
              .ok { status := .pass,
                    message := "Email configured (" ++ toString mxRecords.length
                      ++ " MX record" ++ (if mxRecords.length > 1 then "s" else "")
                      ++ ")",
                    score := 10,
                    details := [("mxRecords", .int (mxRecords.length : Int)),
                                ("records", .arr (mxRecords.map (fun r => .str r)))] }
            else
              .ok { status := .warn, message := "No email (MX) records configured",
                    score := 5,
                    details := [("mxRecords", .int 0),
                                ("note", .str "Domain cannot receive email")] }
          | none =>
              .ok { status := .warn, message := "No email (MX) records configured",
                    score := 5,
                    details := [("mxRecords", .int 0),
                                ("note", .str "Domain cannot receive email")] }

/-- checkEmailConfig's catch handler: timeout and every other error warn/5. -/
def emailCatch (err : JsError) : CheckResult :=
  if err.name = "AbortError" then
    { status := .warn, message := "Email config check timed out", score := 5,
      details := [("error", .str "Timeout")] }
  else
    { status := .warn, message := "Unable to verify email configuration", score := 5,
      details := [("error", .str (jsMsg err))] }

/-- checkEmailConfig from email-config.ts. -/
def checkEmailConfig (e : EmailEnv) : CheckResult :=
  match checkEmailConfigBody e with
  | .ok v => v
  | .error err => emailCatch err

/- ### Performance probe (src/services/pagespeed-check.ts) -/

/-- The fields checkPageSpeed reads from the parsed PageSpeed JSON:
lighthouseResult?.categories?.performance?.score (a 0-1 fraction, absent on
missing path) and the three display metrics. -/
structure PSData where
  perfScore : Option ℚ
  fcp : Option String
  lcp : Option String
  cls : Option String

/-- Outcome of the PageSpeed API fetch once it did not throw. -/
structure PSResp where
  ok : Bool
  status : Int
  json : Except JsError PSData

/-- Environment of one checkPageSpeed invocation. -/
structure PSEnv where
  fetchOutcome : Except JsError PSResp

/-- The body of checkPageSpeed's try block. -/
def checkPageSpeedBody (e : PSEnv) : Except JsError CheckResult :=
  match e.fetchOutcome with
  | .error err => .error err
  | .ok response =>
    if !response.ok then
      .ok { status := .warn,
            message := "Unable to fetch PageSpeed data - API unavailable",
            score := 8,
            details := [("error", .str ("HTTP " ++ toString response.status)),
                        ("note", .str "PageSpeed check skipped")] }
    else
      match response.json with
      | .error err => .error err
      | .ok data =>
        let performanceScore := jsRound ((data.perfScore.getD 0) * 100)
        let fcp := data.fcp.getD "N/A"
        let lcp := data.lcp.getD "N/A"
        let cls := data.cls.getD "N/A"
        let details : Details :=
          [("performanceScore", .int performanceScore),
           ("metrics", .obj [("fcp", .str fcp), ("lcp", .str lcp),
                             ("cls", .str cls)])]
        if performanceScore ≥ 90 then
          .ok { status := .pass,
                message := "Excellent performance (" ++ toString performanceScore
                  ++ "/100)",
                score := 15, details := details }
        else if performanceScore ≥ 50 then
          .ok { status := .warn,
                message := "Moderate performance (" ++ toString performanceScore
                  ++ "/100)",
                score := 10, details := details }
        else
          .ok { status := .fail,
                message := "Poor performance (" ++ toString performanceScore
                  ++ "/100)",
                score := 5, details := details }

/-- checkPageSpeed's catch handler: timeout and every other error warn/8. -/
def pageSpeedCatch (err : JsError) : CheckResult :=
  if err.name = "AbortError" then
    { status := .warn, message := "PageSpeed check timed out - may indicate slow page",
      score := 8,
      details := [("error", .str "Timeout after 30 seconds"),
                  ("note", .str "This timeout suggests performance issues")] }
  else
    { status := .warn, message := "Unable to complete PageSpeed check", score := 8,
      details := [("error", .str (jsMsg err)),
                  ("note", .str "PageSpeed check skipped")] }

/-- checkPageSpeed from pagespeed-check.ts. -/
def checkPageSpeed (e : PSEnv) : CheckResult :=
  match checkPageSpeedBody e with
  | .ok v => v
  | .error err => pageSpeedCatch err

/- ### Derived checks and scan assembly (src/index.ts) -/

/-- Models `pageSpeedResult.details?.performanceScore || 0` (a present numeric
value, or 0 when absent, zero, or of another shape). -/
def detailNumOr0 (d : Details) (key : String) : Int :=
  match d.lookup key with
  | some (.int n) => n
  | _ => 0

/-- deriveMobileCheck from index.ts: a pure function of the PageSpeed verdict. -/
def deriveMobileCheck (pageSpeedResult : CheckResult) : CheckResult :=
  let performanceScore := detailNumOr0 pageSpeedResult.details "performanceScore"
  if pageSpeedResult.status = .fail ∨ performanceScore < 50 then
    { status := .warn, message := "Mobile performance needs improvement", score := 5,
      details := [("derivedFrom", .str "pageSpeed"),
                  ("performanceScore", .int performanceScore)] }
  else if pageSpeedResult.status = .warn ∨ performanceScore < 90 then
    { status := .pass, message := "Good mobile performance", score := 12,
      details := [("derivedFrom", .str "pageSpeed"),
                  ("performanceScore", .int performanceScore)] }
  else
    { status := .pass, message := "Excellent mobile performance", score := 15,
      details := [("derivedFrom", .str "pageSpeed"),
                  ("performanceScore", .int performanceScore)] }

/-- deriveHttpsCheck from index.ts: a pure function of the SSL verdict and of
isHttps on the normalized url (given here by its parse outcome). -/
def deriveHttpsCheck (sslResult : CheckResult) (urlParse : Except JsError UrlObj) :
    CheckResult :=
  let httpsEnabled := isHttpsOf urlParse
  if !httpsEnabled then
    { status := .fail, message := "Site not using HTTPS", score := 0,
      details := [("derivedFrom", .str "ssl"), ("protocol", .str "http")] }
  else if sslResult.status = .pass then
    { status := .pass, message := "HTTPS properly configured", score := 10,
      details := [("derivedFrom", .str "ssl"), ("protocol", .str "https")] }
  else if sslResult.status = .warn then
    { status := .warn, message := "HTTPS enabled but with issues", score := 5,
      details := [("derivedFrom", .str "ssl"), ("protocol", .str "https")] }
  else
    { status := .fail, message := "HTTPS not working properly", score := 0,
      details := [("derivedFrom", .str "ssl"), ("protocol", .str "https")] }

/-- Environment of one whole scan: one environment per top-level probe.  The
SSL probe and deriveHttpsCheck both parse the same normalized url, so they
share ssl.urlParse. -/
structure ScanEnv where
  ssl : SSLEnv
  dns : DNSEnv
  serverResponse : SREnv
  availability : AvEnv
  email : EmailEnv
  pageSpeed : PSEnv

/-- The checks object assembled by handleScan in index.ts: the six probe
verdicts plus the two derived checks. -/
def scanChecks (e : ScanEnv) : CheckResults :=
  let sslResult := checkSSL e.ssl
  let dnsResult := checkDNSSpeed e.dns
  let serverResponseResult := checkServerResponse e.serverResponse
  let availabilityResult := checkAvailability e.availability
  let emailResult := checkEmailConfig e.email
  let pageSpeedResult := checkPageSpeed e.pageSpeed
  let mobileResult := deriveMobileCheck pageSpeedResult
  let httpsResult := deriveHttpsCheck sslResult e.ssl.urlParse
  { ssl := sslResult, dns := dnsResult, serverResponse := serverResponseResult,
    pageSpeed := pageSpeedResult, mobile := mobileResult, https := httpsResult,
    availability := availabilityResult, email := emailResult }

/- ### Outgoing HTTP requests, as each probe constructs them -/

/-- The identifying User-Agent value set by the probes (ADR-003). -/
def wwwmwUserAgent : String :=
  "WWWMW/1.0 (+https://captainpragmatic.com/tools/website-health-scanner)"

/-- An outgoing fetch call: url, method and explicit headers. -/
structure HttpRequest where
  url : String
  method : String
  headers : List (String × String)

/-- The Stage-1 handshake HEAD fetch of checkSSL (ssl-check.ts). -/
def sslHandshakeRequest (hostname : String) : HttpRequest :=
  { url := "https://" ++ hostname, method := "HEAD",
    headers := [("User-Agent", wwwmwUserAgent)] }

/-- The crt.sh fetch of getCertificateFromCTLogs (ssl-check.ts); hostname is
given already percent-encoded (encodeURIComponent), which only affects the
url.  fetch's default method is GET. -/
def ctLogRequest (encodedHostname : String) : HttpRequest :=
  { url := "https://crt.sh/?q=" ++ encodedHostname ++ "&output=json",
    method := "GET",
    headers := [("User-Agent", wwwmwUserAgent)] }

/-- The HEAD fetch of checkServerResponse (server-response.ts). -/
def serverResponseRequest (url : String) : HttpRequest :=
  { url := url, method := "HEAD", headers := [("User-Agent", wwwmwUserAgent)] }

/-- The HEAD fetch of checkAvailability (availability-check.ts). -/
def availabilityRequest (url : String) : HttpRequest :=
  { url := url, method := "HEAD", headers := [("User-Agent", wwwmwUserAgent)] }

/-- One DoH fetch of queryDNSProvider (dns-speed.ts). -/
def dnsProviderRequest (hostname providerUrl : String) : HttpRequest :=
  { url := providerUrl ++ "?name=" ++ hostname ++ "&type=A", method := "GET",
    headers := [("Accept", "application/dns-json")] }

/-- The PageSpeed API fetch of checkPageSpeed (pagespeed-check.ts); url given
already percent-encoded. -/
def pageSpeedRequest (encodedUrl apiKey : String) : HttpRequest :=
  { url := "https://www.googleapis.com/pagespeedonline/v5/runPagespeed?url="
      ++ encodedUrl ++ "&strategy=mobile&key=" ++ apiKey,
    method := "GET", headers := [] }

/-- The MX DoH fetch of checkEmailConfig (email-config.ts). -/
def emailDnsRequest (hostname : String) : HttpRequest :=
  { url := "https://cloudflare-dns.com/dns-query?name=" ++ hostname ++ "&type=MX",
    method := "GET", headers := [("Accept", "application/dns-json")] }

/- ### Theorems -/

/-- Computation form of getScoreLevel: the find? over SCORE_LEVELS is the
evident four-way range dispatch. -/
theorem getScoreLevel_eq (s : Int) :
    getScoreLevel s =
      if 85 ≤ s ∧ s ≤ 100 then ("EXCELLENT - Great website health!", "#28a745")
      else if 70 ≤ s ∧ s ≤ 84 then ("GOOD - Minor improvements needed", "#17a2b8")
      else if 50 ≤ s ∧ s ≤ 69 then ("NEEDS WORK - Several issues to fix", "#ffc107")
      else if 0 ≤ s ∧ s ≤ 49 then ("POOR - Serious problems detected", "#dc3545")
      else ("Unknown", "#6c757d") := by
  unfold getScoreLevel SCORE_LEVELS
  by_cases h1 : 85 ≤ s ∧ s ≤ 100
  · rw [List.find?_cons_of_pos _ (by simp [ge_iff_le, h1.1, h1.2])]
    simp [h1]
  · rw [List.find?_cons_of_neg _ (by simp [ge_iff_le]; omega)]
    by_cases h2 : 70 ≤ s ∧ s ≤ 84
    · rw [List.find?_cons_of_pos _ (by simp [ge_iff_le, h2.1, h2.2])]
      simp [h1, h2]
    · rw [List.find?_cons_of_neg _ (by simp [ge_iff_le]; omega)]
      by_cases h3 : 50 ≤ s ∧ s ≤ 69
      · rw [List.find?_cons_of_pos _ (by simp [ge_iff_le, h3.1, h3.2])]
        simp [h1, h2, h3]
      · rw [List.find?_cons_of_neg _ (by simp [ge_iff_le]; omega)]
        by_cases h4 : 0 ≤ s ∧ s ≤ 49
        · rw [List.find?_cons_of_pos _ (by simp [ge_iff_le, h4.1, h4.2])]
          simp [h1, h2, h3, h4]
        · rw [List.find?_cons_of_neg _ (by simp [ge_iff_le]; omega)]
          simp [h1, h2, h3, h4]

/-- C4: getScoreLevel is total on Int and maps a score to each documented
tier (with its fixed display color) exactly when the score lies in that
tier's band, and to the Unknown tier exactly when the score lies outside
[0,100]; the five equivalences make the four bands a gapless, non-overlapping
cover of [0,100]. -/
theorem getScoreLevel_partition (s : Int) :
    (getScoreLevel s = ("EXCELLENT - Great website health!", "#28a745") ↔
      85 ≤ s ∧ s ≤ 100) ∧
    (getScoreLevel s = ("GOOD - Minor improvements needed", "#17a2b8") ↔
      70 ≤ s ∧ s ≤ 84) ∧
    (getScoreLevel s = ("NEEDS WORK - Several issues to fix", "#ffc107") ↔
      50 ≤ s ∧ s ≤ 69) ∧
    (getScoreLevel s = ("POOR - Serious problems detected", "#dc3545") ↔
      0 ≤ s ∧ s ≤ 49) ∧
    (getScoreLevel s = ("Unknown", "#6c757d") ↔ (s < 0 ∨ 100 < s)) := by
  simp only [getScoreLevel_eq]
  split_ifs with h1 h2 h3 h4 <;>
    refine ⟨?_, ?_, ?_, ?_, ?_⟩ <;>
    constructor <;>
    intro h <;>
    first
      | omega
      | rfl
      | exact absurd h (by decide)

/-- C7 counterexample: the crt.sh certificate-transparency lookup is a
third-party API call, yet the request the probe builds for it carries the
identifying User-Agent header. -/
theorem ct_request_carries_user_agent_cex :
    (ctLogRequest "example.com").headers.lookup "User-Agent" = some wwwmwUserAgent ∧
    wwwmwUserAgent =
      "WWWMW/1.0 (+https://captainpragmatic.com/tools/website-health-scanner)" :=
  ⟨rfl, rfl⟩

/-- C7 (amended): every request sent directly to the scanned site (SSL
handshake, server-response and availability HEAD requests) carries the
identifying User-Agent header; the DNS-over-HTTPS, PageSpeed and MX-lookup
third-party requests do not carry it, but the crt.sh CT-log request does. -/
theorem identifying_header_on_requests (url hostname providerUrl encodedUrl
    apiKey mxHost ctHost : String) :
    (serverResponseRequest url).headers.lookup "User-Agent" = some wwwmwUserAgent ∧
    (availabilityRequest url).headers.lookup "User-Agent" = some wwwmwUserAgent ∧
    (sslHandshakeRequest hostname).headers.lookup "User-Agent" = some wwwmwUserAgent ∧
    (dnsProviderRequest hostname providerUrl).headers.lookup "User-Agent" = none ∧
    (pageSpeedRequest encodedUrl apiKey).headers.lookup "User-Agent" = none ∧
    (emailDnsRequest mxHost).headers.lookup "User-Agent" = none ∧
    (ctLogRequest ctHost).headers.lookup "User-Agent" = some wwwmwUserAgent :=
  ⟨rfl, rfl, rfl, rfl, rfl, rfl, rfl⟩

/-- C8: whenever the PageSpeed API fetch returns a non-success HTTP status or
the 30s timeout aborts it, checkPageSpeed degrades to a warn verdict with
score 8 and in particular never fails. -/
theorem pagespeed_degrades_to_warn8 (e : PSEnv)
    (h : (∃ err, e.fetchOutcome = .error err ∧ err.name = "AbortError") ∨
         (∃ resp, e.fetchOutcome = .ok resp ∧ resp.ok = false)) :
    (checkPageSpeed e).status = .warn ∧ (checkPageSpeed e).score = 8 ∧
    (checkPageSpeed e).status ≠ .fail := by
  rcases h with ⟨err, hout, hname⟩ | ⟨resp, hout, hok⟩
  · simp [checkPageSpeed, checkPageSpeedBody, hout, pageSpeedCatch, hname]
  · simp [checkPageSpeed, checkPageSpeedBody, hout, hok]

/-- C8 witness: the timeout case at a concrete environment. -/
theorem pagespeed_degrades_to_warn8_witness :
    (checkPageSpeed ⟨Except.error ⟨"AbortError", "The operation was aborted"⟩⟩).status
        = .warn ∧
    (checkPageSpeed ⟨Except.error ⟨"AbortError", "The operation was aborted"⟩⟩).score
        = 8 ∧
    (checkPageSpeed ⟨Except.error ⟨"AbortError", "The operation was aborted"⟩⟩).status
        ≠ .fail :=
  pagespeed_degrades_to_warn8 ⟨Except.error ⟨"AbortError", "The operation was aborted"⟩⟩
    (Or.inl ⟨⟨"AbortError", "The operation was aborted"⟩, rfl, rfl⟩)

/-- C10: a performance verdict whose details carry no performanceScore entry
is treated by deriveMobileCheck as performance 0, yielding warn with score 5
whatever the performance verdict's own status and score; and every
graceful-degradation branch of checkPageSpeed (thrown error, including
timeout, or non-success HTTP status) produces exactly such details. -/
theorem mobile_missing_perfscore_warn5 :
    (∀ ps : CheckResult, ps.details.lookup "performanceScore" = none →
      deriveMobileCheck ps =
        { status := .warn, message := "Mobile performance needs improvement",
          score := 5,
          details := [("derivedFrom", .str "pageSpeed"),
                      ("performanceScore", .int 0)] }) ∧
    (∀ e : PSEnv, ((∃ err, e.fetchOutcome = .error err) ∨
        (∃ resp, e.fetchOutcome = .ok resp ∧ resp.ok = false)) →
      (checkPageSpeed e).details.lookup "performanceScore" = none) := by
  constructor
  · intro ps h
    unfold deriveMobileCheck detailNumOr0
    rw [h]
    simp
  · intro e h
    rcases h with ⟨err, hout⟩ | ⟨resp, hout, hok⟩
    · simp only [checkPageSpeed, checkPageSpeedBody, hout]
      unfold pageSpeedCatch
      split <;> simp [List.lookup]
    · simp [checkPageSpeed, checkPageSpeedBody, hout, hok, List.lookup]

/-- C10 witness: the probe's API-unavailable warn/8 verdict at a concrete
environment, and a concrete network-error environment. -/
theorem mobile_missing_perfscore_warn5_witness :
    deriveMobileCheck
        { status := .warn, message := "Unable to fetch PageSpeed data - API unavailable",
          score := 8,
          details := [("error", .str "HTTP 500"),
                      ("note", .str "PageSpeed check skipped")] } =
      { status := .warn, message := "Mobile performance needs improvement",
        score := 5,
        details := [("derivedFrom", .str "pageSpeed"),
                    ("performanceScore", .int 0)] } ∧
    (checkPageSpeed ⟨Except.error ⟨"TypeError", "fetch failed"⟩⟩).details.lookup
        "performanceScore" = none :=
  ⟨mobile_missing_perfscore_warn5.1
      { status := .warn, message := "Unable to fetch PageSpeed data - API unavailable",
        score := 8,
        details := [("error", .str "HTTP 500"),
                    ("note", .str "PageSpeed check skipped")] } rfl,
   mobile_missing_perfscore_warn5.2 ⟨Except.error ⟨"TypeError", "fetch failed"⟩⟩
      (Or.inl ⟨⟨"TypeError", "fetch failed"⟩, rfl⟩)⟩

/-- C9: each probe's public operation is total by construction (its Lean type
returns exactly one CheckResult) and no internal failure escapes it: for every
environment, a probe whose try-body ran through returns that body's verdict,
and a probe whose try-body threw returns its catch handler's verdict instead
of propagating the error; the DNS probe, whose throwing operations are all
caught inside queryDNSProvider, still returns a fail verdict when both
provider fetches threw. -/
theorem probes_total_no_escape (e1 : SSLEnv) (e3 : SREnv) (e4 : AvEnv)
    (e5 : EmailEnv) (e6 : PSEnv) (hostname : String) (t1 t2 : Int) :
    ((∃ v, checkSSLBody e1 = .ok v ∧ checkSSL e1 = v) ∨
      (∃ err, checkSSLBody e1 = .error err ∧ checkSSL e1 = sslCatch err)) ∧
    ((∃ v, checkServerResponseBody e3 = .ok v ∧ checkServerResponse e3 = v) ∨
      (∃ err, checkServerResponseBody e3 = .error err ∧
        checkServerResponse e3 = srCatch err)) ∧
    ((∃ v, checkAvailabilityBody e4 = .ok v ∧ checkAvailability e4 = v) ∨
      (∃ err, checkAvailabilityBody e4 = .error err ∧
        checkAvailability e4 = availCatch err)) ∧
    ((∃ v, checkEmailConfigBody e5 = .ok v ∧ checkEmailConfig e5 = v) ∨
      (∃ err, checkEmailConfigBody e5 = .error err ∧
        checkEmailConfig e5 = emailCatch err)) ∧
    ((∃ v, checkPageSpeedBody e6 = .ok v ∧ checkPageSpeed e6 = v) ∨
      (∃ err, checkPageSpeedBody e6 = .error err ∧
        checkPageSpeed e6 = pageSpeedCatch err)) ∧
    (checkDNSSpeed ⟨hostname, ⟨t1, none⟩, ⟨t2, none⟩⟩).status = .fail := by
  refine ⟨?_, ?_, ?_, ?_, ?_, ?_⟩
  · rcases h : checkSSLBody e1 with err | v
    · exact Or.inr ⟨err, rfl, by simp [checkSSL, h]⟩
    · exact Or.inl ⟨v, rfl, by simp [checkSSL, h]⟩
  · rcases h : checkServerResponseBody e3 with err | v
    · exact Or.inr ⟨err, rfl, by simp [checkServerResponse, h]⟩
    · exact Or.inl ⟨v, rfl, by simp [checkServerResponse, h]⟩
  · rcases h : checkAvailabilityBody e4 with err | v
    · exact Or.inr ⟨err, rfl, by simp [checkAvailability, h]⟩
    · exact Or.inl ⟨v, rfl, by simp [checkAvailability, h]⟩
  · rcases h : checkEmailConfigBody e5 with err | v
    · exact Or.inr ⟨err, rfl, by simp [checkEmailConfig, h]⟩
    · exact Or.inl ⟨v, rfl, by simp [checkEmailConfig, h]⟩
  · rcases h : checkPageSpeedBody e6 with err | v
    · exact Or.inr ⟨err, rfl, by simp [checkPageSpeed, h]⟩
    · exact Or.inl ⟨v, rfl, by simp [checkPageSpeed, h]⟩
  · unfold checkDNSSpeed
    split <;> simp

/-- The SSL probe's score is capped at its documented maximum of 10. -/
theorem checkSSL_score_bounds (e : SSLEnv) :
    0 ≤ (checkSSL e).score ∧ (checkSSL e).score ≤ 10 := by
  rcases hu : e.urlParse with err | u
  · simp [checkSSL, checkSSLBody, hu, sslCatch]
  · by_cases hp : u.protocol = "https:"
    · rcases hh : e.handshake with herr | code
      · unfold checkSSL checkSSLBody sslHandshakeFailVerdict
        by_cases hc : (hasSub (jsMsg herr) "certificate" || hasSub (jsMsg herr) "SSL"
            || hasSub (jsMsg herr) "TLS") = true <;>
          simp [hu, isHttpsOf, hp, hh, hc]
      · rcases hct : ctLookup e.ct u.hostname e.now with _ | cd
        · simp [checkSSL, checkSSLBody, hu, isHttpsOf, hp, hh, hct]
        · by_cases hd : cd.daysUntilExpiry < 0
          · simp [checkSSL, checkSSLBody, hu, isHttpsOf, hp, hh, hct, hd]
          · cases hs : cd.expiringSoon <;>
              simp [checkSSL, checkSSLBody, hu, isHttpsOf, hp, hh, hct, hd, hs]
    · simp [checkSSL, checkSSLBody, hu, isHttpsOf, hp]

/-- The DNS probe's score is capped at its documented maximum of 10. -/
theorem checkDNSSpeed_score_bounds (e : DNSEnv) :
    0 ≤ (checkDNSSpeed e).score ∧ (checkDNSSpeed e).score ≤ 10 := by
  by_cases h0 : e.hostname = ""
  · simp [checkDNSSpeed, h0]
  · rcases hc : e.cloudflare.data with _ | dc
    · rcases hg : e.google.data with _ | dg
      · simp [checkDNSSpeed, h0, hc, hg]
      · by_cases hg0 : dg.Status = 0
        · rcases ha : dg.Answer with _ | answers
          · simp [checkDNSSpeed, h0, hc, hg, hg0, ha]
          · by_cases hae : answers.isEmpty = true
            · simp [checkDNSSpeed, h0, hc, hg, hg0, ha, hae]
            · simp [checkDNSSpeed, h0, hc, hg, hg0, ha, hae]
              (repeat' split) <;> norm_num
        · simp [checkDNSSpeed, h0, hc, hg, hg0]
    · by_cases hc0 : dc.Status = 0
      · rcases hg : e.google.data with _ | dg
        · rcases ha : dc.Answer with _ | answers
          · simp [checkDNSSpeed, h0, hc, hc0, hg, ha]
          · by_cases hae : answers.isEmpty = true
            · simp [checkDNSSpeed, h0, hc, hc0, hg, ha, hae]
            · simp [checkDNSSpeed, h0, hc, hc0, hg, ha, hae]
              (repeat' split) <;> norm_num
        · by_cases hg0 : dg.Status = 0 <;>
            rcases ha : dc.Answer with _ | answers
          · simp [checkDNSSpeed, h0, hc, hc0, hg, hg0, ha]
          · by_cases hae : answers.isEmpty = true
            · simp [checkDNSSpeed, h0, hc, hc0, hg, hg0, ha, hae]
            · simp [checkDNSSpeed, h0, hc, hc0, hg, hg0, ha, hae]
              (repeat' split) <;> norm_num
          · simp [checkDNSSpeed, h0, hc, hc0, hg, hg0, ha]
          · by_cases hae : answers.isEmpty = true
            · simp [checkDNSSpeed, h0, hc, hc0, hg, hg0, ha, hae]
            · simp [checkDNSSpeed, h0, hc, hc0, hg, hg0, ha, hae]
              (repeat' split) <;> norm_num
      · rcases hg : e.google.data with _ | dg
        · simp [checkDNSSpeed, h0, hc, hc0, hg]
        · by_cases hg0 : dg.Status = 0
          · rcases ha : dg.Answer with _ | answers
            · simp [checkDNSSpeed, h0, hc, hc0, hg, hg0, ha]
            · by_cases hae : answers.isEmpty = true
              · simp [checkDNSSpeed, h0, hc, hc0, hg, hg0, ha, hae]
              · simp [checkDNSSpeed, h0, hc, hc0, hg, hg0, ha, hae]
                (repeat' split) <;> norm_num
          · simp [checkDNSSpeed, h0, hc, hc0, hg, hg0]

/-- The server-response probe's score is capped at its documented maximum of 15. -/
theorem checkServerResponse_score_bounds (e : SREnv) :
    0 ≤ (checkServerResponse e).score ∧ (checkServerResponse e).score ≤ 15 := by
  rcases h : e.fetchOutcome with err | resp
  · simp [checkServerResponse, checkServerResponseBody, srCatch, h]
    split <;> norm_num
  · by_cases c1 : resp.status < 200 ∨ resp.status ≥ 400
    · simp [checkServerResponse, checkServerResponseBody, h, c1]
    · by_cases c2 : e.ttfb < 200
      · simp [checkServerResponse, checkServerResponseBody, h, c1, c2]
      · by_cases c3 : e.ttfb < 500 <;>
          simp [checkServerResponse, checkServerResponseBody, h, c1, c2, c3]

/-- The availability probe's score is capped at its documented maximum of 15. -/
theorem checkAvailability_score_bounds (e : AvEnv) :
    0 ≤ (checkAvailability e).score ∧ (checkAvailability e).score ≤ 15 := by
  rcases h : e.fetchOutcome with err | resp
  · simp [checkAvailability, checkAvailabilityBody, availCatch, h]
    split <;> norm_num
  · by_cases c1 : resp.status ≥ 200 ∧ resp.status < 300
    · simp [checkAvailability, checkAvailabilityBody, h, c1]
    · by_cases c2 : resp.status ≥ 300 ∧ resp.status < 400
      · simp [checkAvailability, checkAvailabilityBody, h, c1, c2]
      · by_cases c3 : resp.status ≥ 400 ∧ resp.status < 500 <;>
          simp [checkAvailability, checkAvailabilityBody, h, c1, c2, c3]

/-- The email probe's score is capped at its documented maximum of 10. -/
theorem checkEmailConfig_score_bounds (e : EmailEnv) :
    0 ≤ (checkEmailConfig e).score ∧ (checkEmailConfig e).score ≤ 10 := by
  by_cases h0 : e.hostname = ""
  · simp [checkEmailConfig, checkEmailConfigBody, h0]
  · rcases h : e.fetchOutcome with err | resp
    · simp [checkEmailConfig, checkEmailConfigBody, emailCatch, h0, h]
      split <;> norm_num
    · by_cases hok : resp.ok = false
      · simp [checkEmailConfig, checkEmailConfigBody, h0, h, hok]
      · rcases hj : resp.json with jerr | data
        · simp [checkEmailConfig, checkEmailConfigBody, emailCatch, h0, h, hok, hj]
          split <;> norm_num
        · rcases ha : data.Answer with _ | answer
          · simp [checkEmailConfig, checkEmailConfigBody, h0, h, hok, hj, ha]
          · by_cases hmx : data.Status = 0 ∧ ¬answer.isEmpty
            · simp [checkEmailConfig, checkEmailConfigBody, h0, h, hok, hj, ha, hmx]
            · simp only [checkEmailConfig, checkEmailConfigBody, h, hj, ha]
              rw [if_neg h0, if_neg hmx]
              simp only [Bool.not_eq_true] at hok
              rw [if_neg (by simp [hok])]
              simp

/-- The performance probe's score is capped at its documented maximum of 15. -/
theorem checkPageSpeed_score_bounds (e : PSEnv) :
    0 ≤ (checkPageSpeed e).score ∧ (checkPageSpeed e).score ≤ 15 := by
  rcases h : e.fetchOutcome with err | resp
  · simp [checkPageSpeed, checkPageSpeedBody, pageSpeedCatch, h]
    split <;> norm_num
  · by_cases hok : resp.ok = false
    · simp [checkPageSpeed, checkPageSpeedBody, h, hok]
    · rcases hj : resp.json with jerr | data
      · simp [checkPageSpeed, checkPageSpeedBody, pageSpeedCatch, h, hok, hj]
        split <;> norm_num
      · by_cases c1 : jsRound ((data.perfScore.getD 0) * 100) ≥ 90
        · simp [checkPageSpeed, checkPageSpeedBody, h, hok, hj, c1]
        · by_cases c2 : jsRound ((data.perfScore.getD 0) * 100) ≥ 50 <;>
            simp [checkPageSpeed, checkPageSpeedBody, h, hok, hj, c1, c2]

/-- The derived mobile check's score is capped at its documented maximum of 15. -/
theorem deriveMobileCheck_score_bounds (ps : CheckResult) :
    0 ≤ (deriveMobileCheck ps).score ∧ (deriveMobileCheck ps).score ≤ 15 := by
  unfold deriveMobileCheck
  by_cases c1 : ps.status = Status.fail ∨ detailNumOr0 ps.details "performanceScore" < 50
  · simp [c1]
  · by_cases c2 : ps.status = Status.warn ∨ detailNumOr0 ps.details "performanceScore" < 90 <;>
      simp [c1, c2]

/-- The derived HTTPS check's score is capped at its documented maximum of 10. -/
theorem deriveHttpsCheck_score_bounds (ssl : CheckResult)
    (u : Except JsError UrlObj) :
    0 ≤ (deriveHttpsCheck ssl u).score ∧ (deriveHttpsCheck ssl u).score ≤ 10 := by
  unfold deriveHttpsCheck
  cases hb : isHttpsOf u
  · simp [hb]
  · by_cases c1 : ssl.status = Status.pass
    · simp [hb, c1]
    · by_cases c2 : ssl.status = Status.warn <;> simp [hb, c1, c2]

/-- C3: for every scan, overallScore is the exact unweighted sum of the eight
check scores, each check's score is individually capped at its documented
maximum (ssl 10, dns 10, serverResponse 15, pageSpeed 15, mobile 15, https 10,
availability 15, email 10) and non-negative, and the total lies in [0,100]. -/
theorem overall_score_sum_and_bounds (e : ScanEnv) :
    calculateOverallScore (scanChecks e) =
      (scanChecks e).ssl.score + (scanChecks e).dns.score +
      (scanChecks e).serverResponse.score + (scanChecks e).pageSpeed.score +
      (scanChecks e).mobile.score + (scanChecks e).https.score +
      (scanChecks e).availability.score + (scanChecks e).email.score ∧
    (0 ≤ (scanChecks e).ssl.score ∧ (scanChecks e).ssl.score ≤ 10) ∧
    (0 ≤ (scanChecks e).dns.score ∧ (scanChecks e).dns.score ≤ 10) ∧
    (0 ≤ (scanChecks e).serverResponse.score ∧
      (scanChecks e).serverResponse.score ≤ 15) ∧
    (0 ≤ (scanChecks e).pageSpeed.score ∧ (scanChecks e).pageSpeed.score ≤ 15) ∧
    (0 ≤ (scanChecks e).mobile.score ∧ (scanChecks e).mobile.score ≤ 15) ∧
    (0 ≤ (scanChecks e).https.score ∧ (scanChecks e).https.score ≤ 10) ∧
    (0 ≤ (scanChecks e).availability.score ∧
      (scanChecks e).availability.score ≤ 15) ∧
    (0 ≤ (scanChecks e).email.score ∧ (scanChecks e).email.score ≤ 10) ∧
    0 ≤ calculateOverallScore (scanChecks e) ∧
    calculateOverallScore (scanChecks e) ≤ 100 := by
  have hsum : ∀ c : CheckResults, calculateOverallScore c =
      c.ssl.score + c.dns.score + c.serverResponse.score + c.pageSpeed.score +
      c.mobile.score + c.https.score + c.availability.score + c.email.score := by
    intro c
    unfold calculateOverallScore
    simp [List.foldl]
  have h1 := checkSSL_score_bounds e.ssl
  have h2 := checkDNSSpeed_score_bounds e.dns
  have h3 := checkServerResponse_score_bounds e.serverResponse
  have h4 := checkPageSpeed_score_bounds e.pageSpeed
  have h5 := deriveMobileCheck_score_bounds (checkPageSpeed e.pageSpeed)
  have h6 := deriveHttpsCheck_score_bounds (checkSSL e.ssl) e.ssl.urlParse
  have h7 := checkAvailability_score_bounds e.availability
  have h8 := checkEmailConfig_score_bounds e.email
  have hchecks : (scanChecks e).ssl = checkSSL e.ssl ∧
      (scanChecks e).dns = checkDNSSpeed e.dns ∧
      (scanChecks e).serverResponse = checkServerResponse e.serverResponse ∧
      (scanChecks e).pageSpeed = checkPageSpeed e.pageSpeed ∧
      (scanChecks e).mobile = deriveMobileCheck (checkPageSpeed e.pageSpeed) ∧
      (scanChecks e).https = deriveHttpsCheck (checkSSL e.ssl) e.ssl.urlParse ∧
      (scanChecks e).availability = checkAvailability e.availability ∧
      (scanChecks e).email = checkEmailConfig e.email := by
    unfold scanChecks
    exact ⟨rfl, rfl, rfl, rfl, rfl, rfl, rfl, rfl⟩
  obtain ⟨c1, c2, c3, c4, c5, c6, c7, c8⟩ := hchecks
  rw [hsum, c1, c2, c3, c4, c5, c6, c7, c8]
  refine ⟨rfl, h1, h2, h3, h4, h5, h6, h7, h8, ?_, ?_⟩ <;> omega

/-- The fold underlying firstMaxBy stays inside its inputs. -/
theorem firstMaxBy_fold_mem (f : CTLogCertificate → Int)
    (l : List CTLogCertificate) (a : CTLogCertificate) :
    l.foldl (fun best y => if f best < f y then y else best) a = a ∨
      l.foldl (fun best y => if f best < f y then y else best) a ∈ l := by
  induction l generalizing a with
  | nil => exact Or.inl rfl
  | cons x xs ih =>
    simp only [List.foldl_cons]
    rcases ih (if f a < f x then x else a) with h | h
    · rw [h]
      split
      · exact Or.inr (List.mem_cons_self _ _)
      · exact Or.inl rfl
    · exact Or.inr (List.mem_cons_of_mem _ h)

/-- firstMaxBy returns an element of its input list. -/
theorem firstMaxBy_mem (f : CTLogCertificate → Int) (l : List CTLogCertificate)
    (x : CTLogCertificate) (h : firstMaxBy f l = some x) : x ∈ l := by
  rcases l with _ | ⟨y, ys⟩
  · simp [firstMaxBy] at h
  · simp only [firstMaxBy, Option.some.injEq] at h
    rcases firstMaxBy_fold_mem f ys y with h2 | h2
    · rw [← h, h2]
      exact List.mem_cons_self _ _
    · rw [← h]
      exact List.mem_cons_of_mem _ h2

/-- The fold underlying firstMaxBy dominates its start value and every element. -/
theorem firstMaxBy_fold_le (f : CTLogCertificate → Int)
    (l : List CTLogCertificate) (a : CTLogCertificate) :
    f a ≤ f (l.foldl (fun best y => if f best < f y then y else best) a) ∧
      ∀ y ∈ l, f y ≤ f (l.foldl (fun best y => if f best < f y then y else best) a) := by
  induction l generalizing a with
  | nil => exact ⟨le_refl _, by simp⟩
  | cons x xs ih =>
    simp only [List.foldl_cons]
    obtain ⟨ih1, ih2⟩ := ih (if f a < f x then x else a)
    constructor
    · refine le_trans ?_ ih1
      split <;> omega
    · intro y hy
      rcases List.mem_cons.mp hy with rfl | hy
      · refine le_trans ?_ ih1
        split <;> omega
      · exact ih2 y hy

/-- firstMaxBy returns an element whose key dominates the whole list. -/
theorem firstMaxBy_le (f : CTLogCertificate → Int) (l : List CTLogCertificate)
    (x : CTLogCertificate) (h : firstMaxBy f l = some x) :
    ∀ y ∈ l, f y ≤ f x := by
  rcases l with _ | ⟨z, zs⟩
  · simp [firstMaxBy] at h
  · simp only [firstMaxBy, Option.some.injEq] at h
    obtain ⟨h1, h2⟩ := firstMaxBy_fold_le f zs z
    intro y hy
    rcases List.mem_cons.mp hy with rfl | hy
    · rw [← h]; exact h1
    · rw [← h]; exact h2 y hy

/-- firstMaxBy of a non-empty list returns something. -/
theorem firstMaxBy_ne_nil (f : CTLogCertificate → Int) (l : List CTLogCertificate)
    (h : l ≠ []) : ∃ x, firstMaxBy f l = some x := by
  rcases l with _ | ⟨y, ys⟩
  · exact absurd rfl h
  · exact ⟨_, rfl⟩

/-- C1: whenever the CT-log selection returns a record, that record's fields
come from a certificate among the first 50 returned records whose
subject-alternative-name set matches the target hostname (exactly or by
wildcard, as sanMatches defines); a record outside the first 50, or whose SAN
set does not match, is never selected. -/
theorem ct_selected_record_in_window (certs : List CTLogCertificate)
    (hostname : String) (now : Int) (r : CertInfo)
    (h : getCertificateFromCTLogs certs hostname now = some r) :
    ∃ c, c ∈ (certs.take 50).filter (fun cert => sanMatches hostname cert) ∧
      r.expiresAt = c.not_after ∧ r.issuer = c.issuer_name ∧
      r.sans = ((splitOnChar '\n' c.name_value.data).length : Int) := by
  simp only [getCertificateFromCTLogs] at h
  split at h
  · exact absurd h (by simp)
  · split at h
    · exact absurd h (by simp)
    · rcases hact : firstMaxBy (fun c => c.not_before)
          (((certs.take 50).filter (fun cert => sanMatches hostname cert)).filter
            (fun cert => decide (now < cert.not_after))) with _ | activeCert
      · rw [hact] at h
        rcases hexp : firstMaxBy (fun c => c.not_after)
            ((certs.take 50).filter (fun cert => sanMatches hostname cert)) with _ | m
        · rw [hexp] at h
          exact absurd h (by simp)
        · rw [hexp] at h
          simp only [Option.some.injEq] at h
          refine ⟨m, firstMaxBy_mem _ _ _ hexp, ?_, ?_, ?_⟩ <;>
            rw [← h]
      · rw [hact] at h
        simp only [Option.some.injEq] at h
        have hmem := firstMaxBy_mem _ _ _ hact
        have hmem2 := List.mem_of_mem_filter hmem
        refine ⟨activeCert, hmem2, ?_, ?_, ?_⟩ <;> rw [← h]

/-- C1 witness: a concrete CT response with one matching, still-valid record. -/
theorem ct_selected_record_in_window_witness :
    ∃ c, c ∈ (([⟨1, "TestCA", "example.com", 1, "", -5, 8640000000⟩] :
        List CTLogCertificate).take 50).filter
          (fun cert => sanMatches "example.com" cert) ∧
      (⟨8640000000, 100, "TestCA", 1, false⟩ : CertInfo).expiresAt = c.not_after ∧
      (⟨8640000000, 100, "TestCA", 1, false⟩ : CertInfo).issuer = c.issuer_name ∧
      (⟨8640000000, 100, "TestCA", 1, false⟩ : CertInfo).sans =
        ((splitOnChar '\n' c.name_value.data).length : Int) :=
  ct_selected_record_in_window [⟨1, "TestCA", "example.com", 1, "", -5, 8640000000⟩]
    "example.com" 0 ⟨8640000000, 100, "TestCA", 1, false⟩ rfl

/-- C2 counterexample: one matching record expired 1000 ms ago (all matching
records expired).  The probe computes daysUntilExpiry = -floor(1000/86400000)
= 0, which is not negative, and differs from the general definition
floor((notAfter − now)/86400000) = -1. -/
theorem ct_expired_days_not_negative_cex :
    getCertificateFromCTLogs [⟨1, "TestCA", "example.com", 1, "", -100, 0⟩]
        "example.com" 1000 =
      some ⟨0, 0, "TestCA", 1, false⟩ ∧
    ¬((0 : Int) < 0) ∧
    ((0 : Int) - 1000).fdiv 86400000 = -1 := by
  refine ⟨by decide, by decide, by decide⟩

/-- C2 (amended): when every record of the filtered 50-record window has
expired (notAfter ≤ now), the probe selects the record with the most recent
notAfter and reports daysUntilExpiry = -floor((now − latest notAfter)/86400000);
this value is never positive, and it is negative exactly when the latest
notAfter lies at least one full day (86400000 ms) in the past — for a record
expired less than a day the value is 0, not negative, and it coincides with
floor((notAfter − now)/86400000) only when now − notAfter is a multiple of
86400000. -/
theorem ct_all_expired_selection (certs : List CTLogCertificate)
    (hostname : String) (now : Int)
    (hm : (certs.take 50).filter (fun cert => sanMatches hostname cert) ≠ [])
    (hall : ∀ c ∈ (certs.take 50).filter (fun cert => sanMatches hostname cert),
      c.not_after ≤ now) :
    ∃ r c, getCertificateFromCTLogs certs hostname now = some r ∧
      c ∈ (certs.take 50).filter (fun cert => sanMatches hostname cert) ∧
      r.expiresAt = c.not_after ∧
      (∀ c' ∈ (certs.take 50).filter (fun cert => sanMatches hostname cert),
        c'.not_after ≤ c.not_after) ∧
      r.daysUntilExpiry = -((now - c.not_after).fdiv 86400000) ∧
      r.daysUntilExpiry ≤ 0 ∧
      (86400000 ≤ now - c.not_after → r.daysUntilExpiry < 0) := by
  have hcerts : ¬certs.isEmpty = true := by
    rcases certs with _ | ⟨c, cs⟩
    · simp at hm
    · simp
  have hmB : ((certs.take 50).filter (fun cert => sanMatches hostname cert)).isEmpty
      = false := by
    rcases hfe : (certs.take 50).filter (fun cert => sanMatches hostname cert) with
      _ | ⟨c, cs⟩
    · exact absurd hfe hm
    · rfl
  have hactive : ((certs.take 50).filter (fun cert => sanMatches hostname cert)).filter
      (fun cert => decide (now < cert.not_after)) = [] := by
    rw [List.filter_eq_nil_iff]
    intro c hc
    simp only [decide_eq_true_eq, not_lt]
    exact hall c hc
  obtain ⟨m, hmx⟩ := firstMaxBy_ne_nil (fun c => c.not_after)
    ((certs.take 50).filter (fun cert => sanMatches hostname cert)) hm
  have hmem := firstMaxBy_mem _ _ _ hmx
  have hle := firstMaxBy_le _ _ _ hmx
  have hnn : 0 ≤ now - m.not_after := by
    have := hall m hmem
    omega
  refine ⟨⟨m.not_after, -((now - m.not_after).fdiv 86400000),
      m.issuer_name, ((splitOnChar '\n' m.name_value.data).length : Int), false⟩,
    m, ?_, hmem, rfl, hle, rfl, ?_, ?_⟩
  · have h0 : firstMaxBy (fun c => c.not_before) ([] : List CTLogCertificate)
        = none := rfl
    simp only [getCertificateFromCTLogs, hcerts, Bool.false_eq_true, if_false,
      hmB, hactive, h0, hmx]
  · show -((now - m.not_after).fdiv 86400000) ≤ 0
    have := Int.fdiv_nonneg hnn (by omega : (0:Int) ≤ 86400000)
    omega
  · intro hday
    show -((now - m.not_after).fdiv 86400000) < 0
    have h1 : (1 : Int) ≤ (now - m.not_after).fdiv 86400000 := by
      rw [Int.fdiv_eq_ediv _ (by omega : (0:Int) ≤ 86400000)]
      rw [Int.le_ediv_iff_mul_le (by omega : (0:Int) < 86400000)]
      omega
    omega

/-- C2 witness: a single matching record whose notAfter lies two full days in
the past; the reported daysUntilExpiry is -2. -/
theorem ct_all_expired_selection_witness :
    ∃ r c, getCertificateFromCTLogs [⟨1, "TestCA", "example.com", 1, "", -100, 0⟩]
        "example.com" 172800000 = some r ∧
      c ∈ (([⟨1, "TestCA", "example.com", 1, "", -100, 0⟩] :
          List CTLogCertificate).take 50).filter
        (fun cert => sanMatches "example.com" cert) ∧
      r.expiresAt = c.not_after ∧
      (∀ c' ∈ (([⟨1, "TestCA", "example.com", 1, "", -100, 0⟩] :
          List CTLogCertificate).take 50).filter
        (fun cert => sanMatches "example.com" cert), c'.not_after ≤ c.not_after) ∧
      r.daysUntilExpiry = -(((172800000 : Int) - c.not_after).fdiv 86400000) ∧
      r.daysUntilExpiry ≤ 0 ∧
      (86400000 ≤ (172800000 : Int) - c.not_after → r.daysUntilExpiry < 0) :=
  ct_all_expired_selection [⟨1, "TestCA", "example.com", 1, "", -100, 0⟩]
    "example.com" 172800000 (by decide) (by decide)

/-- A verdict set in which every check has its maximum score and pass status,
but the DNS details record dnssecValid = false (as the DNS probe produces
whenever the resolver did not validate a DNSSEC chain). -/
def allMaxDnssecOff : CheckResults :=
  { ssl := ⟨.pass, "HTTPS enabled with valid certificate", 10, []⟩,
    dns := ⟨.pass, "Fast DNS resolution (40ms avg, DNSSEC not enabled)", 10,
      [("dnssecValid", .bool false)]⟩,
    serverResponse := ⟨.pass, "Fast server response (100ms TTFB)", 15, []⟩,
    pageSpeed := ⟨.pass, "Excellent performance (95/100)", 15, []⟩,
    mobile := ⟨.pass, "Excellent mobile performance", 15, []⟩,
    https := ⟨.pass, "HTTPS properly configured", 10, []⟩,
    availability := ⟨.pass, "Site is online and responding", 15, []⟩,
    email := ⟨.pass, "Email configured (2 MX records)", 10, []⟩ }

/-- C5 counterexample: all eight checks at maximum score with pass status,
yet the recommendation list is the DNSSEC rule's message, not the single
fallback positive message, because the DNS details carry dnssecValid = false. -/
theorem all_max_dnssec_rec_cex :
    allMaxDnssecOff.ssl.score = 10 ∧ allMaxDnssecOff.dns.score = 10 ∧
    allMaxDnssecOff.serverResponse.score = 15 ∧
    allMaxDnssecOff.pageSpeed.score = 15 ∧ allMaxDnssecOff.mobile.score = 15 ∧
    allMaxDnssecOff.https.score = 10 ∧ allMaxDnssecOff.availability.score = 15 ∧
    allMaxDnssecOff.email.score = 10 ∧
    allMaxDnssecOff.ssl.status = .pass ∧ allMaxDnssecOff.dns.status = .pass ∧
    allMaxDnssecOff.serverResponse.status = .pass ∧
    allMaxDnssecOff.pageSpeed.status = .pass ∧
    allMaxDnssecOff.mobile.status = .pass ∧ allMaxDnssecOff.https.status = .pass ∧
    allMaxDnssecOff.availability.status = .pass ∧
    allMaxDnssecOff.email.status = .pass ∧
    calculateOverallScore allMaxDnssecOff = 100 ∧
    generateRecommendations allMaxDnssecOff =
      ["Enable DNSSEC on your domain for tamper protection and security"] ∧
    generateRecommendations allMaxDnssecOff ≠
      ["Great job! Keep monitoring your site regularly"] := by
  refine ⟨rfl, rfl, rfl, rfl, rfl, rfl, rfl, rfl, rfl, rfl, rfl, rfl, rfl, rfl,
    rfl, rfl, rfl, by decide, by decide⟩

/-- C5 (amended): if all eight checks have their maximum score with the pass
status the probes attach to those scores, and the DNS details do not record
dnssecValid = false, then overallScore is 100, the tier is the EXCELLENT tier
with its fixed color, and the recommendation list is exactly the single
fallback positive message. -/
theorem all_max_scores_report (checks : CheckResults)
    (hs1 : checks.ssl.score = 10) (hs2 : checks.dns.score = 10)
    (hs3 : checks.serverResponse.score = 15) (hs4 : checks.pageSpeed.score = 15)
    (hs5 : checks.mobile.score = 15) (hs6 : checks.https.score = 10)
    (hs7 : checks.availability.score = 15) (hs8 : checks.email.score = 10)
    (ht1 : checks.ssl.status = .pass) (ht2 : checks.dns.status = .pass)
    (ht3 : checks.serverResponse.status = .pass)
    (ht4 : checks.pageSpeed.status = .pass) (ht5 : checks.mobile.status = .pass)
    (ht6 : checks.https.status = .pass) (_ht7 : checks.availability.status = .pass)
    (ht8 : checks.email.status = .pass)
    (hdnssec : checks.dns.details.lookup "dnssecValid" ≠ some (DVal.bool false)) :
    calculateOverallScore checks = 100 ∧
    getScoreLevel (calculateOverallScore checks) =
      ("EXCELLENT - Great website health!", "#28a745") ∧
    generateRecommendations checks =
      ["Great job! Keep monitoring your site regularly"] := by
  have h100 : calculateOverallScore checks = 100 := by
    unfold calculateOverallScore
    simp [List.foldl, hs1, hs2, hs3, hs4, hs5, hs6, hs7, hs8]
  refine ⟨h100, by rw [h100]; decide, ?_⟩
  have hdn : strictEqFalse (checks.dns.details.lookup "dnssecValid") = false := by
    rcases hv : checks.dns.details.lookup "dnssecValid" with _ | v
    · rfl
    · rcases v with s | n | b | a | o
      · rfl
      · rfl
      · rcases b with _ | _
        · exact absurd hv hdnssec
        · rfl
      · rfl
      · rfl
  unfold generateRecommendations
  simp [ht1, ht2, ht3, ht4, ht5, ht6, ht8, hdn]

/-- C5 witness: the amended statement at a concrete all-maximum verdict set
whose DNS details record dnssecValid = true. -/
theorem all_max_scores_report_witness :
    calculateOverallScore
        ⟨⟨.pass, "", 10, []⟩, ⟨.pass, "", 10, [("dnssecValid", .bool true)]⟩,
         ⟨.pass, "", 15, []⟩, ⟨.pass, "", 15, []⟩, ⟨.pass, "", 15, []⟩,
         ⟨.pass, "", 10, []⟩, ⟨.pass, "", 15, []⟩, ⟨.pass, "", 10, []⟩⟩ = 100 ∧
    getScoreLevel (calculateOverallScore
        ⟨⟨.pass, "", 10, []⟩, ⟨.pass, "", 10, [("dnssecValid", .bool true)]⟩,
         ⟨.pass, "", 15, []⟩, ⟨.pass, "", 15, []⟩, ⟨.pass, "", 15, []⟩,
         ⟨.pass, "", 10, []⟩, ⟨.pass, "", 15, []⟩, ⟨.pass, "", 10, []⟩⟩) =
      ("EXCELLENT - Great website health!", "#28a745") ∧
    generateRecommendations
        ⟨⟨.pass, "", 10, []⟩, ⟨.pass, "", 10, [("dnssecValid", .bool true)]⟩,
         ⟨.pass, "", 15, []⟩, ⟨.pass, "", 15, []⟩, ⟨.pass, "", 15, []⟩,
         ⟨.pass, "", 10, []⟩, ⟨.pass, "", 15, []⟩, ⟨.pass, "", 10, []⟩⟩ =
      ["Great job! Keep monitoring your site regularly"] :=
  all_max_scores_report
    ⟨⟨.pass, "", 10, []⟩, ⟨.pass, "", 10, [("dnssecValid", .bool true)]⟩,
     ⟨.pass, "", 15, []⟩, ⟨.pass, "", 15, []⟩, ⟨.pass, "", 15, []⟩,
     ⟨.pass, "", 10, []⟩, ⟨.pass, "", 15, []⟩, ⟨.pass, "", 10, []⟩⟩
    rfl rfl rfl rfl rfl rfl rfl rfl rfl rfl rfl rfl rfl rfl rfl rfl
    (by simp [List.lookup])

/-- Math.round of an integral value is that value. -/
theorem jsRound_intCast (t : Int) : jsRound ((t : ℚ)) = t := by
  unfold jsRound
  rw [add_comm, Int.floor_add_int]
  norm_num

/-- C6 counterexample: provider A (Cloudflare) succeeds with status 0 and one
answer record but took 200 ms, provider B (Google) timed out; the probe
returns a fail verdict with score 0 (the ≥150 ms speed threshold), not a
non-fail verdict. -/
theorem dns_providerA_slow_fail_cex :
    (checkDNSSpeed ⟨"example.com",
        ⟨200, some ⟨0, false, some [⟨"example.com", "93.184.216.34", 300⟩]⟩⟩,
        ⟨3000, none⟩⟩).status = .fail ∧
    (checkDNSSpeed ⟨"example.com",
        ⟨200, some ⟨0, false, some [⟨"example.com", "93.184.216.34", 300⟩]⟩⟩,
        ⟨3000, none⟩⟩).score = 0 := by
  norm_num [checkDNSSpeed]
  rw [if_neg (by decide : ¬("example.com" = ""))]
  exact ⟨rfl, rfl⟩

/-- C6 (amended): when provider A returns status 0 with at least one answer
record and provider B times out (its caught failure leaves data null), the
probe computes its statistics from provider A's data alone — minTime, maxTime,
averageTime and responseTime all equal provider A's elapsed time — and the
verdict is non-fail exactly when that elapsed time is below the 150 ms fail
threshold; at ≥150 ms the probe returns a fail verdict despite provider A's
success. -/
theorem dns_single_provider_stats (host : String) (t1 t2 : Int)
    (d : DNSResponse) (a : DNSAnswer) (rest : List DNSAnswer)
    (hhost : ¬host = "") (hst : d.Status = 0) (hans : d.Answer = some (a :: rest)) :
    (checkDNSSpeed ⟨host, ⟨t1, some d⟩, ⟨t2, none⟩⟩).details.lookup "minTime"
      = some (.int t1) ∧
    (checkDNSSpeed ⟨host, ⟨t1, some d⟩, ⟨t2, none⟩⟩).details.lookup "maxTime"
      = some (.int t1) ∧
    (checkDNSSpeed ⟨host, ⟨t1, some d⟩, ⟨t2, none⟩⟩).details.lookup "averageTime"
      = some (.int t1) ∧
    (checkDNSSpeed ⟨host, ⟨t1, some d⟩, ⟨t2, none⟩⟩).details.lookup "responseTime"
      = some (.int t1) ∧
    (t1 < 150 → (checkDNSSpeed ⟨host, ⟨t1, some d⟩, ⟨t2, none⟩⟩).status ≠ .fail) ∧
    (150 ≤ t1 → (checkDNSSpeed ⟨host, ⟨t1, some d⟩, ⟨t2, none⟩⟩).status = .fail) := by
  simp only [checkDNSSpeed, hst, hans]
  rw [if_neg hhost]
  simp only [decide_True, List.isEmpty_cons, ite_true, List.append_nil,
    List.foldl_cons, List.foldl_nil, List.length_cons, List.length_nil]
  norm_num [hst, hans, listMin, listMax, jsRound_intCast]
  by_cases h75 : (t1 : ℚ) < 75
  · have h75i : t1 < 75 := by exact_mod_cast h75
    by_cases h20 : (t1 : ℚ) < 20 <;>
      simp [h75, h20, List.lookup] <;> omega
  · have h75i : 75 ≤ t1 := by
      have h2 := not_lt.mp h75
      exact_mod_cast h2
    by_cases h150 : (t1 : ℚ) < 150
    · have h150i : t1 < 150 := by exact_mod_cast h150
      simp [h75, h150, List.lookup]
      omega
    · have h150i : 150 ≤ t1 := by
        have h2 := not_lt.mp h150
        exact_mod_cast h2
      simp [h75, h150, List.lookup]
      omega

/-- C6 witness: a concrete host with provider A at 40 ms and provider B timed
out. -/
theorem dns_single_provider_stats_witness :
    (checkDNSSpeed ⟨"example.com",
        ⟨40, some ⟨0, true, some [⟨"example.com", "93.184.216.34", 300⟩]⟩⟩,
        ⟨3000, none⟩⟩).details.lookup "minTime" = some (.int 40) ∧
    (checkDNSSpeed ⟨"example.com",
        ⟨40, some ⟨0, true, some [⟨"example.com", "93.184.216.34", 300⟩]⟩⟩,
        ⟨3000, none⟩⟩).details.lookup "maxTime" = some (.int 40) ∧
    (checkDNSSpeed ⟨"example.com",
        ⟨40, some ⟨0, true, some [⟨"example.com", "93.184.216.34", 300⟩]⟩⟩,
        ⟨3000, none⟩⟩).details.lookup "averageTime" = some (.int 40) ∧
    (checkDNSSpeed ⟨"example.com",
        ⟨40, some ⟨0, true, some [⟨"example.com", "93.184.216.34", 300⟩]⟩⟩,
        ⟨3000, none⟩⟩).details.lookup "responseTime" = some (.int 40) ∧
    ((40 : Int) < 150 → (checkDNSSpeed ⟨"example.com",
        ⟨40, some ⟨0, true, some [⟨"example.com", "93.184.216.34", 300⟩]⟩⟩,
        ⟨3000, none⟩⟩).status ≠ .fail) ∧
    ((150 : Int) ≤ 40 → (checkDNSSpeed ⟨"example.com",
        ⟨40, some ⟨0, true, some [⟨"example.com", "93.184.216.34", 300⟩]⟩⟩,
        ⟨3000, none⟩⟩).status = .fail) :=
  dns_single_provider_stats "example.com" 40 3000
    ⟨0, true, some [⟨"example.com", "93.184.216.34", 300⟩]⟩
    ⟨"example.com", "93.184.216.34", 300⟩ [] (by decide) rfl rfl

end WWWMW
